import Mathlib

/-!
Shallow embedding of the bearer-token authorization flow of the coffee-shop
service (file `backend/src/auth/auth.py`): token extraction from the
Authorization header, JWT verification against a fetched JWKS key set,
permission enforcement, and the `requires_auth` decorator that composes them
around a protected operation.

Python exceptions are modelled as the `error` side of `Except PyExc _`;
effects that live outside the module (the network fetch of the key set, the
`jose` library header decode and signature check) are supplied by an
environment record `VerifyEnv`, so that `verify_decode_jwt` is the exact
control flow of the source over those oracles.
-/

deriving instance DecidableEq for Except

/-- Modelled Python exceptions that can escape the auth functions: the
module-defined `AuthError(error_dict, status_code)` with its `code` and
`description` payload fields, the `IndexError` from an out-of-bounds list
subscript, a network fault escaping `urlopen` (socket timeout or transport
error), a fault escaping the `jose` header decode, a `TypeError` from a
Python `in` test on a non-container, and the `HTTPException` raised by
Flask `abort(status)`. -/
inductive PyExc where
  | authError (code : String) (description : String) (status : Nat)
  | indexError
  | netFault (timedOut : Bool)
  | jwtHeaderFault
  | typeFault
  | httpAbort (status : Nat)
deriving DecidableEq

/-- Value of one claim in a decoded JWT payload dict, as far as this module
inspects it: a string, an integer, or a list of permission strings. -/
inductive ClaimValue where
  | str (s : String)
  | int (n : Int)
  | strList (xs : List String)
deriving DecidableEq

/-- Decoded JWT payload: a Python dict from claim name to value. -/
abbrev ClaimSet := List (String × ClaimValue)

/-- Python dict lookup `d[k]` / `k in d`, for a dict with unique keys
represented as an association list. -/
def dictGet {β : Type} (k : String) : List (String × β) → Option β
  | [] => none
  | (k2, v) :: rest => if k2 = k then some v else dictGet k rest

/-- Python substring test `needle in hay` on strings. -/
def strContains (hay needle : String) : Bool :=
  if needle = "" then true else 2 ≤ (hay.splitOn needle).length

/-- Python membership test `x in v` on a claim value: element membership for
a list, substring containment for a string, `TypeError` for an integer. -/
def pyMem (x : String) : ClaimValue → Except PyExc Bool
  | .str s => .ok (strContains s x)
  | .int _ => .error .typeFault
  | .strList xs => .ok (xs.contains x)

/-- Accumulator-style splitter behind `pySplit`: walks the characters,
collecting the current word in reverse and emitting it at each whitespace
run or at the end. -/
def pySplitAux : List Char → List Char → List String
  | [], [] => []
  | [], acc => [String.mk acc.reverse]
  | c :: cs, acc =>
    if c.isWhitespace then
      (if acc = [] then pySplitAux cs [] else String.mk acc.reverse :: pySplitAux cs [])
    else pySplitAux cs (c :: acc)

/-- Python `str.split()` with no separator: split on runs of whitespace,
discarding empty pieces, so a whitespace-only string yields the empty
list. -/
def pySplit (s : String) : List String :=
  pySplitAux s.data []

/-- Python `str.lower()`, restricted to the character-wise lowering this
module needs for the scheme word comparison. -/
def pyLower (s : String) : String :=
  String.mk (s.data.map Char.toLower)

/-- One JSON Web Key from the fetched JWKS document. -/
structure Jwk where
  kty : String
  kid : String
  use : String
  n : String
  e : String
deriving DecidableEq

/-- The fetched JWKS document: a JSON object with a `keys` array. -/
structure Jwks where
  keys : List Jwk
deriving DecidableEq

/-- The `rsa_key` dict that `verify_decode_jwt` builds from a matching JWK
and passes to the signature check. -/
structure RsaKey where
  kty : String
  kid : String
  use : String
  n : String
  e : String
deriving DecidableEq

/-- Construction of the `rsa_key` dict from a matching key of the JWKS. -/
def jwkToRsa (key : Jwk) : RsaKey :=
  { kty := key.kty, kid := key.kid, use := key.use, n := key.n, e := key.e }

/-- Module constant `AUTH0_DOMAIN`. -/
def AUTH0_DOMAIN : String := "coffeeshopbo.us.auth0.com"

/-- Module constant `ALGORITHMS`. -/
def ALGORITHMS : List String := ["RS256"]

/-- Module constant `API_AUDIENCE`. -/
def API_AUDIENCE : String := "drink"

/-- The JWKS discovery URL hard-coded in `verify_decode_jwt`. -/
def JWKS_URL : String := "https://coffeeshopbo.us.auth0.com/.well-known/jwks.json"

/-- Outcome of the `jose` call `jwt.decode(token, rsa_key, algorithms,
audience, issuer)`: a decoded payload, an `ExpiredSignatureError`, a
`JWTClaimsError`, or any other exception. -/
inductive DecodeOutcome where
  | ok (payload : ClaimSet)
  | expiredSignature
  | claimsError
  | otherFault
deriving DecidableEq

/-- Environment of external effects consumed by `verify_decode_jwt`: the
result of `json.loads(urlopen(url, timeout).read())`, the result of
`jwt.get_unverified_header(token)`, and the outcome of `jwt.decode` for a
given token, key, algorithm list, audience and issuer. -/
structure VerifyEnv where
  fetch : String → Nat → Except PyExc Jwks
  getUnverifiedHeader : String → Except PyExc (List (String × String))
  decode : String → RsaKey → List String → String → String → DecodeOutcome

/-- The key-selection loop of `verify_decode_jwt`: `rsa_key` starts as the
empty (falsy) dict and is overwritten by every key of the set whose `kid`
equals the token header `kid`, so the last match in iteration order is
kept. -/
def select_rsa_key (keys : List Jwk) (kid : String) : Option RsaKey :=
  List.foldl (fun acc key => if key.kid == kid then some (jwkToRsa key) else acc) none keys

/-- The `try: jwt.decode ... except` block of `verify_decode_jwt`, entered
once a non-empty `rsa_key` has been selected. -/
def decode_branch (env : VerifyEnv) (token : String) (rsa_key : RsaKey) :
    Except PyExc ClaimSet :=
  match env.decode token rsa_key ALGORITHMS API_AUDIENCE ("https://" ++ AUTH0_DOMAIN ++ "/") with
  | .ok payload => .ok payload
  | .expiredSignature => .error (.authError "token_expired" "Token expired." 401)
  | .claimsError =>
      .error (.authError "invalid_claims"
        "Incorrect claims. Please, check the audience and issuer." 401)
  | .otherFault =>
      .error (.authError "invalid_header" "Unable to parse authentication token." 400)

/-- The source function `verify_decode_jwt(token)`: fetch the JWKS with a
1-unit timeout (a fault there propagates), read the unverified token header
(a fault there propagates), fail 401 `invalid_header` when it has no `kid`,
select the matching RSA key, decode when one was found, and otherwise fail
400 `invalid_header`. -/
def verify_decode_jwt (env : VerifyEnv) (token : String) : Except PyExc ClaimSet :=
  match env.fetch JWKS_URL 1 with
  | .error exc => .error exc
  | .ok jwks =>
    match env.getUnverifiedHeader token with
    | .error exc => .error exc
    | .ok unverified_header =>
      match dictGet "kid" unverified_header with
      | none => .error (.authError "invalid_header" "Authorization malformed." 401)
      | some kid =>
        match select_rsa_key jwks.keys kid with
        | some rsa_key => decode_branch env token rsa_key
        | none =>
            .error (.authError "invalid_header" "Unable to find the appropriate key." 400)

/-- The source function `get_token_auth_header()`, over the value of the
Authorization request header (`none` when the header is absent). A missing
or empty header fails 401; otherwise the value is split on whitespace, the
subscript `parts[0]` raises `IndexError` when the split is empty, a first
part other than case-insensitive `bearer` fails 401 `Invalid_header`, a
single part fails 401 `invalid_header`, more than two parts fail 401
`Invalid_header`, and exactly two parts return the second. -/
def get_token_auth_header (auth : Option String) : Except PyExc String :=
  match auth with
  | none =>
      .error (.authError "authorization_header_missing" "Auhtorization header is expected" 401)
  | some a =>
    if a = "" then
      .error (.authError "authorization_header_missing" "Auhtorization header is expected" 401)
    else
      match pySplit a with
      | [] => .error .indexError
      | p0 :: rest =>
        if pyLower p0 ≠ "bearer" then
          .error (.authError "Invalid_header"
            "Authorization header must start with \"Bearer\"." 401)
        else
          match rest with
          | [] => .error (.authError "invalid_header" "Token not found" 401)
          | [t] => .ok t
          | _ :: _ :: _ =>
              .error (.authError "Invalid_header" "It must be a bearer token" 401)

/-- The source function `check_permissions(permission, payload)`: fail 400
`invalid_claims` when the payload has no `permissions` key, fail 403
`unauthorized` when the required permission is not in the `permissions`
value, and return `True` otherwise. -/
def check_permissions (permission : String) (payload : ClaimSet) : Except PyExc Bool :=
  match dictGet "permissions" payload with
  | none => .error (.authError "invalid_claims" "Permissions not included in JWT" 400)
  | some v =>
    match pyMem permission v with
    | .error exc => .error exc
    | .ok true => .ok true
    | .ok false => .error (.authError "unauthorized" "Permission not found" 403)

/-- Per-request environment of the wrapper: the Authorization header value
and the external effects of verification. -/
structure RequestEnv where
  authHeader : Option String
  verifyEnv : VerifyEnv

/-- The wrapper produced by the decorator `requires_auth(permission)`
around a protected operation `f`: extract the token (an exception there
propagates), verify it under a bare `except:` that turns every failure into
`abort(401)`, enforce the permission (an exception there propagates), and
finally return `f(payload, *args)`. The second component of the result
records each invocation of `f` with its arguments; the source calls `f` at
exactly one site, recorded there. -/
def requires_auth {α β : Type} (permission : String) (f : ClaimSet → α → β)
    (env : RequestEnv) (args : α) : Except PyExc β × List (ClaimSet × α) :=
  match get_token_auth_header env.authHeader with
  | .error exc => (.error exc, [])
  | .ok token =>
    match verify_decode_jwt env.verifyEnv token with
    | .error _ => (.error (.httpAbort 401), [])
    | .ok payload =>
      match check_permissions permission payload with
      | .error exc => (.error exc, [])
      | .ok _ => (.ok (f payload args), [(payload, args)])

/-- Discriminator used to state the safety claim on `get_token_auth_header`:
the call either returned a token or raised the module AuthError (as opposed
to an unstructured fault such as `IndexError`). -/
def isAuthErrorOrOk : Except PyExc String → Bool
  | .ok _ => true
  | .error (.authError _ _ _) => true
  | .error _ => false

/-- Discriminator used to state the key-fetch error-handling claim: the
verification result is an AuthError with code `key_fetch_failed` and
status 503. -/
def resultIsKeyFetchFailed : Except PyExc ClaimSet → Bool
  | .error (.authError code _ status) => code == "key_fetch_failed" && status == 503
  | _ => false

/-- Characterization of the key-selection fold for any starting accumulator:
it yields the last key of the list whose `kid` matches, and otherwise
returns the accumulator unchanged. -/
theorem select_rsa_key_foldl (kid : String) (keys : List Jwk) (acc : Option RsaKey) :
    List.foldl (fun acc key => if key.kid == kid then some (jwkToRsa key) else acc) acc keys =
      match (keys.filter (fun k => k.kid == kid)).getLast? with
      | some k => some (jwkToRsa k)
      | none => acc := by
  induction keys generalizing acc with
  | nil => rfl
  | cons k ks ih =>
    rw [List.foldl_cons, ih]
    simp only [List.filter_cons]
    cases hb : k.kid == kid with
    | true =>
      simp only [if_true]
      cases hfp : ks.filter (fun j => j.kid == kid) with
      | nil => simp
      | cons b bs =>
        rw [List.getLast?_cons_cons]
        cases hg : (b :: bs).getLast? with
        | none => simp at hg
        | some j => rfl
    | false =>
      simp only [Bool.false_eq_true, if_false]

/-- The `rsa_key` selected by `verify_decode_jwt` is the last key of the
fetched set whose `kid` matches, when one exists, and empty otherwise. -/
theorem select_rsa_key_spec (kid : String) (keys : List Jwk) :
    select_rsa_key keys kid =
      match (keys.filter (fun k => k.kid == kid)).getLast? with
      | some k => some (jwkToRsa k)
      | none => none :=
  select_rsa_key_foldl kid keys none

/-- Claim C10: a present-but-empty Authorization header value is treated
identically to an absent header — for the empty-string value,
`get_token_auth_header` raises AuthError `authorization_header_missing`
with status 401, exactly as for the absent header. -/
theorem get_token_auth_header_empty_as_missing :
    get_token_auth_header (some "") =
      .error (.authError "authorization_header_missing"
        "Auhtorization header is expected" 401) ∧
    get_token_auth_header (some "") = get_token_auth_header none := by
  decide

/-- Claim C4: for every required permission string (the empty string
included) and every claim set without a `permissions` entry,
`check_permissions` raises AuthError `invalid_claims` with status 400. -/
theorem check_permissions_missing_permissions_claim (permission : String)
    (payload : ClaimSet) (hnone : dictGet "permissions" payload = none) :
    check_permissions permission payload =
      .error (.authError "invalid_claims" "Permissions not included in JWT" 400) := by
  unfold check_permissions
  rw [hnone]

/-- Witness for claim C4 at the empty required permission and a payload
whose only claim is `sub`. -/
theorem check_permissions_missing_permissions_claim_witness :
    check_permissions "" [("sub", ClaimValue.str "user1")] =
      .error (.authError "invalid_claims" "Permissions not included in JWT" 400) :=
  check_permissions_missing_permissions_claim "" [("sub", ClaimValue.str "user1")]
    (by decide)

/-- Counterexample for claim C7: on the header value `Token abc`, whose
scheme word is not `bearer`, the raised AuthError carries the code
`Invalid_header` with a capital I, not the code `invalid_header` the claim
states. -/
theorem get_token_auth_header_scheme_code_cex :
    get_token_auth_header (some "Token abc") =
      .error (.authError "Invalid_header"
        "Authorization header must start with \"Bearer\"." 401) ∧
    (("Invalid_header" : String) == "invalid_header") = false := by
  decide

/-- Claim C7 as amended: for every present header value whose whitespace
split is non-empty and whose first part is not case-insensitively `bearer`,
`get_token_auth_header` raises an AuthError whose code is `Invalid_header`
(capitalized as in the source) and whose status is 401. -/
theorem get_token_auth_header_scheme_mismatch (a p0 : String) (rest : List String)
    (hne : a ≠ "") (hsplit : pySplit a = p0 :: rest)
    (hscheme : pyLower p0 ≠ "bearer") :
    get_token_auth_header (some a) =
      .error (.authError "Invalid_header"
        "Authorization header must start with \"Bearer\"." 401) := by
  simp [get_token_auth_header, hne, hsplit, hscheme]

/-- Witness for the amended claim C7 at the header value `Token abc`. -/
theorem get_token_auth_header_scheme_mismatch_witness :
    get_token_auth_header (some "Token abc") =
      .error (.authError "Invalid_header"
        "Authorization header must start with \"Bearer\"." 401) :=
  get_token_auth_header_scheme_mismatch "Token abc" "Token" ["abc"]
    (by decide) (by decide) (by decide)

/-- Counterexample for claim C8: the header value consisting of a single
space is present and non-empty, yet its whitespace split is empty, so the
subscript `parts[0]` is out of bounds and an `IndexError` escapes instead
of a returned token or an AuthError. -/
theorem get_token_auth_header_whitespace_cex :
    ((" " : String) == "") = false ∧
    pySplit " " = [] ∧
    get_token_auth_header (some " ") = .error .indexError ∧
    isAuthErrorOrOk (get_token_auth_header (some " ")) = false := by
  decide

/-- Claim C8 as amended: for every present, non-empty header value whose
whitespace split is non-empty, `get_token_auth_header` either returns a
token or raises an AuthError; a non-empty whitespace-only value has an
empty split and makes the first-element subscript go out of bounds. -/
theorem get_token_auth_header_total_on_nonblank (a : String)
    (hne : a ≠ "") (hsplit : pySplit a ≠ []) :
    isAuthErrorOrOk (get_token_auth_header (some a)) = true := by
  simp only [get_token_auth_header]
  rw [if_neg hne]
  cases hs : pySplit a with
  | nil => exact absurd hs hsplit
  | cons p0 rest =>
    by_cases hb : pyLower p0 = "bearer"
    · cases rest with
      | nil => simp [hb, isAuthErrorOrOk]
      | cons t ts =>
        cases ts with
        | nil => simp [hb, isAuthErrorOrOk]
        | cons u us => simp [hb, isAuthErrorOrOk]
    · simp [hb, isAuthErrorOrOk]

/-- Witness for the amended claim C8 at the header value `Bearer tok`. -/
theorem get_token_auth_header_total_on_nonblank_witness :
    isAuthErrorOrOk (get_token_auth_header (some "Bearer tok")) = true :=
  get_token_auth_header_total_on_nonblank "Bearer tok" (by decide) (by decide)

/-- Claim C5: for every token whose header carries a `kid`, when the
fetched key set has no key with that `kid`, `verify_decode_jwt` fails with
AuthError `invalid_header`, status 400 and description `Unable to find the
appropriate key.`. -/
theorem verify_decode_jwt_unknown_kid (env : VerifyEnv) (token : String)
    (jwks : Jwks) (hdr : List (String × String)) (kid : String)
    (hfetch : env.fetch JWKS_URL 1 = .ok jwks)
    (hhdr : env.getUnverifiedHeader token = .ok hdr)
    (hkid : dictGet "kid" hdr = some kid)
    (hnomatch : ∀ k ∈ jwks.keys, k.kid ≠ kid) :
    verify_decode_jwt env token =
      .error (.authError "invalid_header" "Unable to find the appropriate key." 400) := by
  have hfil : jwks.keys.filter (fun k => k.kid == kid) = [] := by
    rw [List.filter_eq_nil_iff]
    intro k hk
    simpa using hnomatch k hk
  have hsel : select_rsa_key jwks.keys kid = none := by
    rw [select_rsa_key_spec, hfil]
    rfl
  simp only [verify_decode_jwt, hfetch, hhdr, hkid, hsel]

/-- Witness for claim C5: a key set holding only the key `k2` and a token
header naming `k1`. -/
theorem verify_decode_jwt_unknown_kid_witness :
    verify_decode_jwt
      { fetch := fun _ _ => .ok { keys := [Jwk.mk "RSA" "k2" "sig" "mod2" "AQAB"] },
        getUnverifiedHeader := fun _ => .ok [("alg", "RS256"), ("kid", "k1")],
        decode := fun _ _ _ _ _ => .otherFault }
      "tok" =
      .error (.authError "invalid_header" "Unable to find the appropriate key." 400) :=
  verify_decode_jwt_unknown_kid _ "tok" { keys := [Jwk.mk "RSA" "k2" "sig" "mod2" "AQAB"] }
    [("alg", "RS256"), ("kid", "k1")] "k1" (by decide) (by decide) (by decide)
    (by decide)

/-- Claim C6: for every fetched key set and token header `kid`, when
several keys share that `kid`, the `rsa_key` selected — and hence the key
handed to the signature check of the decode branch — is the last matching
key in iteration order. -/
theorem verify_decode_jwt_last_matching_key (env : VerifyEnv) (token : String)
    (jwks : Jwks) (hdr : List (String × String)) (kid : String) (k : Jwk)
    (hfetch : env.fetch JWKS_URL 1 = .ok jwks)
    (hhdr : env.getUnverifiedHeader token = .ok hdr)
    (hkid : dictGet "kid" hdr = some kid)
    (hlast : (jwks.keys.filter (fun j => j.kid == kid)).getLast? = some k) :
    select_rsa_key jwks.keys kid = some (jwkToRsa k) ∧
      verify_decode_jwt env token = decode_branch env token (jwkToRsa k) := by
  have hsel : select_rsa_key jwks.keys kid = some (jwkToRsa k) := by
    rw [select_rsa_key_spec, hlast]
  refine ⟨hsel, ?_⟩
  simp only [verify_decode_jwt, hfetch, hhdr, hkid, hsel]

/-- Witness for claim C6: two keys share the `kid` `k1` and the selected
`rsa_key` is built from the second (last) of them. -/
theorem verify_decode_jwt_last_matching_key_witness :
    select_rsa_key
      [Jwk.mk "RSA" "k1" "sig" "modA" "AQAB", Jwk.mk "RSA" "k1" "sig" "modB" "AQAB"]
      "k1" = some (jwkToRsa (Jwk.mk "RSA" "k1" "sig" "modB" "AQAB")) ∧
    verify_decode_jwt
      { fetch := fun _ _ =>
          .ok { keys := [Jwk.mk "RSA" "k1" "sig" "modA" "AQAB",
            Jwk.mk "RSA" "k1" "sig" "modB" "AQAB"] },
        getUnverifiedHeader := fun _ => .ok [("kid", "k1")],
        decode := fun _ rsa_key _ _ _ => .ok [("used_modulus", .str rsa_key.n)] }
      "tok" =
      decode_branch
        { fetch := fun _ _ =>
            .ok { keys := [Jwk.mk "RSA" "k1" "sig" "modA" "AQAB",
              Jwk.mk "RSA" "k1" "sig" "modB" "AQAB"] },
          getUnverifiedHeader := fun _ => .ok [("kid", "k1")],
          decode := fun _ rsa_key _ _ _ => .ok [("used_modulus", .str rsa_key.n)] }
        "tok" (jwkToRsa (Jwk.mk "RSA" "k1" "sig" "modB" "AQAB")) :=
  verify_decode_jwt_last_matching_key _ "tok"
    { keys := [Jwk.mk "RSA" "k1" "sig" "modA" "AQAB",
        Jwk.mk "RSA" "k1" "sig" "modB" "AQAB"] }
    [("kid", "k1")] "k1" (Jwk.mk "RSA" "k1" "sig" "modB" "AQAB")
    (by decide) (by decide) (by decide) (by decide)

/-- Claim C3, evaluated against the source: when the JWKS fetch raises a
timeout or transport fault, `verify_decode_jwt` propagates that unstructured
fault unchanged, and the propagated result is not the AuthError
`key_fetch_failed` with status 503 that the design requires. -/
theorem verify_decode_jwt_fetch_fault_not_converted (env : VerifyEnv)
    (token : String) (timedOut : Bool)
    (hfetch : env.fetch JWKS_URL 1 = .error (.netFault timedOut)) :
    verify_decode_jwt env token = .error (.netFault timedOut) ∧
      resultIsKeyFetchFailed (verify_decode_jwt env token) = false := by
  have hrun : verify_decode_jwt env token = .error (.netFault timedOut) := by
    simp only [verify_decode_jwt, hfetch]
  exact ⟨hrun, by rw [hrun]; rfl⟩

/-- Witness for the claim C3 evaluation: a fetch that times out. -/
theorem verify_decode_jwt_fetch_fault_not_converted_witness :
    verify_decode_jwt
      { fetch := fun _ _ => .error (.netFault true),
        getUnverifiedHeader := fun _ => .ok [("kid", "k1")],
        decode := fun _ _ _ _ _ => .otherFault }
      "tok" = .error (.netFault true) ∧
    resultIsKeyFetchFailed
      (verify_decode_jwt
        { fetch := fun _ _ => .error (.netFault true),
          getUnverifiedHeader := fun _ => .ok [("kid", "k1")],
          decode := fun _ _ _ _ _ => .otherFault }
        "tok") = false :=
  verify_decode_jwt_fetch_fault_not_converted _ "tok" true (by decide)

/-- Claim C1: whenever the Authorization header parses to a token, the
token verifies to a payload, and the payload's `permissions` list contains
the required permission, the wrapper built by `requires_auth` invokes the
protected operation exactly once — its recorded call list is exactly one
call with the decoded payload as first argument — and returns the result
of that call unchanged. -/
theorem requires_auth_success_invokes_once {α β : Type} (permission : String)
    (f : ClaimSet → α → β) (env : RequestEnv) (args : α) (token : String)
    (payload : ClaimSet) (perms : List String)
    (htok : get_token_auth_header env.authHeader = .ok token)
    (hver : verify_decode_jwt env.verifyEnv token = .ok payload)
    (hperms : dictGet "permissions" payload = some (.strList perms))
    (hmem : perms.contains permission = true) :
    requires_auth permission f env args = (.ok (f payload args), [(payload, args)]) := by
  have hcp : check_permissions permission payload = .ok true := by
    simp only [check_permissions, hperms, pyMem, hmem]
  simp only [requires_auth, htok, hver, hcp]

/-- Witness for claim C1: a concrete environment whose verification yields
a payload holding the permission `get:drinks`; the wrapped operation is
invoked once on it and its result is returned. -/
theorem requires_auth_success_invokes_once_witness :
    requires_auth "get:drinks" (fun p (_ : Unit) => p)
      { authHeader := some "Bearer tok",
        verifyEnv :=
          { fetch := fun _ _ => .ok { keys := [Jwk.mk "RSA" "k1" "sig" "modA" "AQAB"] },
            getUnverifiedHeader := fun _ => .ok [("kid", "k1")],
            decode := fun _ _ _ _ _ => .ok [("permissions", .strList ["get:drinks"])] } }
      () =
      (.ok [("permissions", ClaimValue.strList ["get:drinks"])],
        [([("permissions", ClaimValue.strList ["get:drinks"])], ())]) :=
  requires_auth_success_invokes_once "get:drinks" _ _ () "tok"
    [("permissions", ClaimValue.strList ["get:drinks"])] ["get:drinks"]
    (by decide) (by decide) (by decide) (by decide)

/-- Claim C2: whenever `verify_decode_jwt` fails with any exception at all,
the wrapper built by `requires_auth` aborts with a bare 401, the same
response for every failure, so the specific code and description computed
by the verifier are discarded; the protected operation is never invoked. -/
theorem requires_auth_collapses_verifier_failure {α β : Type} (permission : String)
    (f : ClaimSet → α → β) (env : RequestEnv) (args : α) (token : String) (exc : PyExc)
    (htok : get_token_auth_header env.authHeader = .ok token)
    (hfail : verify_decode_jwt env.verifyEnv token = .error exc) :
    requires_auth permission f env args = (.error (.httpAbort 401), []) := by
  simp only [requires_auth, htok, hfail]

/-- Witness for claim C2: a verifier failure caused by a fetch timeout is
collapsed to the bare 401 abort. -/
theorem requires_auth_collapses_verifier_failure_witness :
    requires_auth "get:drinks" (fun p (_ : Unit) => p)
      { authHeader := some "Bearer tok",
        verifyEnv :=
          { fetch := fun _ _ => .error (.netFault true),
            getUnverifiedHeader := fun _ => .ok [("kid", "k1")],
            decode := fun _ _ _ _ _ => .otherFault } }
      () = (.error (.httpAbort 401), []) :=
  requires_auth_collapses_verifier_failure "get:drinks" _ _ () "tok"
    (.netFault true) (by decide) (by decide)

/-- Claim C9: under the default empty required permission of
`requires_auth`, a decoded payload whose `permissions` list does not
contain the empty string is rejected — `check_permissions` raises
AuthError `unauthorized` with status 403, and the wrapper propagates that
error without invoking the protected operation. -/
theorem requires_auth_empty_permission_rejects {α β : Type}
    (f : ClaimSet → α → β) (env : RequestEnv) (args : α) (token : String)
    (payload : ClaimSet) (perms : List String)
    (htok : get_token_auth_header env.authHeader = .ok token)
    (hver : verify_decode_jwt env.verifyEnv token = .ok payload)
    (hperms : dictGet "permissions" payload = some (.strList perms))
    (hmem : perms.contains "" = false) :
    check_permissions "" payload =
      .error (.authError "unauthorized" "Permission not found" 403) ∧
    requires_auth "" f env args =
      (.error (.authError "unauthorized" "Permission not found" 403), []) := by
  have hcp : check_permissions "" payload =
      .error (.authError "unauthorized" "Permission not found" 403) := by
    simp only [check_permissions, hperms, pyMem, hmem]
  exact ⟨hcp, by simp only [requires_auth, htok, hver, hcp]⟩

/-- Witness for claim C9: a payload carrying only the permission
`get:drinks` is rejected by an endpoint requiring the default empty
permission. -/
theorem requires_auth_empty_permission_rejects_witness :
    check_permissions "" [("permissions", ClaimValue.strList ["get:drinks"])] =
      .error (.authError "unauthorized" "Permission not found" 403) ∧
    requires_auth "" (fun p (_ : Unit) => p)
      { authHeader := some "Bearer tok",
        verifyEnv :=
          { fetch := fun _ _ => .ok { keys := [Jwk.mk "RSA" "k1" "sig" "modA" "AQAB"] },
            getUnverifiedHeader := fun _ => .ok [("kid", "k1")],
            decode := fun _ _ _ _ _ => .ok [("permissions", .strList ["get:drinks"])] } }
      () =
      (.error (.authError "unauthorized" "Permission not found" 403), []) :=
  requires_auth_empty_permission_rejects _ _ () "tok"
    [("permissions", ClaimValue.strList ["get:drinks"])] ["get:drinks"]
    (by decide) (by decide) (by decide) (by decide)
